
import Mathlib

/-
A verification development for the Asterix MinAtar environment
(gymnax, `gymnax/environments/minatar/asterix.py`).

The Python source manipulates small integer arrays with JAX; the model
below mirrors it with plain integers.  Boolean masks that the source
multiplies into integer arrays are modelled with `b2i`; the source's
`jax.ops.index_update` on the 8-row entity table becomes `List.set`;
the `for i in range(8)` loops become `List.foldl` over `List.range 8`.
-/

namespace Asterix

/-- Integer value of a boolean mask, the implicit `True → 1, False → 0`
coercion the source uses when multiplying JAX booleans with integers. -/
def b2i (b : Bool) : Int := if b then 1 else 0

/-- One row of the `entities` table: a 5-dimensional integer vector.
Field 0 is the column `x` (moved by ±1 and compared with `player_x`),
field 1 the row `y` (compared with `player_y`), field 2 the direction
bit `lr`, field 3 the gold indicator, field 4 the filled/active flag. -/
structure Entity where
  x : Int
  y : Int
  lr : Int
  gold : Int
  filled : Int
deriving DecidableEq

instance : Inhabited Entity := ⟨⟨0, 0, 0, 0, 0⟩⟩

/-- Scalar product of a mask with a whole entity row, the source's
`x * mask` on a 5-vector. -/
def smulE (k : Int) (e : Entity) : Entity :=
  ⟨k * e.x, k * e.y, k * e.lr, k * e.gold, k * e.filled⟩

/-- Componentwise sum of two entity rows, used by the masked blend
`mask1 * table1 + mask2 * table2` in `step`. -/
def addE (a b : Entity) : Entity :=
  ⟨a.x + b.x, a.y + b.y, a.lr + b.lr, a.gold + b.gold, a.filled + b.filled⟩

/-- The full state dictionary of the source. -/
structure GameState where
  player_x : Int
  player_y : Int
  shot_timer : Int
  spawn_speed : Int
  spawn_timer : Int
  move_speed : Int
  move_timer : Int
  ramp_timer : Int
  ramp_index : Int
  entities : List Entity
deriving DecidableEq

/-- Loop body of the first (pre-move) collision loop of `update_entities`:
for slot `i`, compare the entity's coordinate pair with the player's pair
under `logical_and` with the filled flag (modelled as the conjunction of
the two coordinate equalities and the flag), add the gold collision to
the reward, write back `x * (1 - collision_gold)`, and assign (not OR)
the enemy collision into the `done` accumulator. -/
def passAStep (px py : Int) (acc : List Entity × Int × Bool) (i : Nat) :
    List Entity × Int × Bool :=
  let ents := acc.1
  let reward := acc.2.1
  let x := ents.getD i default
  let slot_filled := decide (x.filled ≠ 0)
  let collision := (decide (x.x = px) && decide (x.y = py)) && slot_filled
  let collision_gold := collision && decide (x.gold ≠ 0)
  let collision_enemy := collision && decide ((1 - x.gold) ≠ 0)
  (ents.set i (smulE (1 - b2i collision_gold) x),
   reward + b2i collision_gold,
   collision_enemy)

/-- Loop body of the second (movement and post-move collision) loop of
`update_entities`: move the slot's entity by `slot_filled * (x + lr - (1 - lr))`,
write back `x * slot_filled * (1 - outside_of_frame)`, then re-check the
collision on the moved local row and write back `x * (1 - collision_gold)`
over the same slot (the source's second `index_update` overwrites the
first), and assign the enemy collision into `done`. -/
def passBStep (px py : Int) (acc : List Entity × Int × Bool) (i : Nat) :
    List Entity × Int × Bool :=
  let ents := acc.1
  let reward := acc.2.1
  let x0 := ents.getD i default
  let slot_filled := decide (x0.filled ≠ 0)
  let lr := x0.lr
  let x : Entity :=
    { x0 with x := b2i slot_filled * (x0.x + 1 * lr - 1 * (1 - lr))
                   + (1 - b2i slot_filled) * x0.x }
  let outside_of_frame := decide (x.x < 0) || decide (x.x > 9)
  let ents1 := ents.set i (smulE (b2i slot_filled * (1 - b2i outside_of_frame)) x)
  let collision := (decide (x.x = px) && decide (x.y = py)) && slot_filled
  let collision_gold := collision && decide (x.gold ≠ 0)
  let ents2 := ents1.set i (smulE (1 - b2i collision_gold) x)
  let collision_enemy := collision && decide ((1 - x.gold) ≠ 0)
  (ents2, reward + b2i collision_gold, collision_enemy)

/-- The first (pre-move collision) loop of `update_entities` over the 8
slots, threading the entity table, the reward and the `done` variable. -/
def passA_run (s : GameState) : List Entity × Int × Bool :=
  List.foldl (passAStep s.player_x s.player_y) (s.entities, 0, false) (List.range 8)

/-- The second (movement and post-move collision) loop of
`update_entities`, continuing from the accumulator of the first. -/
def passB_run (s : GameState) : List Entity × Int × Bool :=
  List.foldl (passBStep s.player_x s.player_y) (passA_run s) (List.range 8)

/-- `update_entities` of the source: the pre-move collision loop over the
8 slots, the `move_timer` mask update
`time_to_move * move_speed + (1 - time_to_move) * move_speed`, and the
movement / post-move collision loop.  Returns the updated state, the
accumulated reward, and the final value of the `done` variable. -/
def update_entities (s : GameState) : GameState × Int × Bool :=
  let time_to_move := decide (s.move_timer = 0)
  let mt := b2i time_to_move * s.move_speed + (1 - b2i time_to_move) * s.move_speed
  ({ s with entities := (passB_run s).1, move_timer := mt },
   (passB_run s).2.1, (passB_run s).2.2)

/-- Loop of `while_sample_slots`, a fuel-indexed unfolding of the
source's `jax.lax.while_loop`: the loop state `val` is the pair of the
slot counter and the free flag; the guard is `val[0] < 7 ∧ val[1] == 0`;
the body first increments the counter and then reads the filled flag at
the new counter.  Starting from counter 0 the counter grows by one per
iteration and the guard fails at 7, so fuel 7 makes the recursion run the
while loop to completion. -/
def slotLoop (state_entities : List Int) : Nat → Int × Int → Int × Int
  | 0, val => val
  | Nat.succ n, val =>
    if val.1 < 7 ∧ val.2 = 0 then
      slotLoop state_entities n
        (val.1 + 1, b2i (decide (state_entities.getD (val.1 + 1).toNat 0 = 0)))
    else val

/-- `while_sample_slots` of the source: it draws `order_to_go_through`
(a random permutation of the 8 slot indices) but the loop never reads it;
the permutation is kept here as the unused first argument.  Returns the
final slot counter and the free flag. -/
def while_sample_slots (order_to_go_through : List Int) (state_entities : List Int) :
    Int × Int :=
  slotLoop state_entities 7 (0, 0)

/-- `spawn_entity` of the source, with the two random draws (`lr` and
`is_gold`) passed in explicitly: the spawn column is `(1 - lr) * 9`, the
slot search runs over the filled flags, and the produced entity is
`[x, slot + 1, lr, is_gold, free]`, returned together with the slot. -/
def spawn_entity (lr is_gold : Int) (order_to_go_through : List Int) (s : GameState) :
    Entity × Int :=
  let x := (1 - lr) * 9
  let state_entities := s.entities.map (fun e => e.filled)
  let sf := while_sample_slots order_to_go_through state_entities
  (⟨x, sf.1 + 1, lr, is_gold, sf.2⟩, sf.1)

/-- The masked entity-table blend at the top of `step`:
`(spawn_timer == 0) * index_update(entities, slot, entity)
 + (spawn_timer > 0) * entities`. -/
def spawn_update (lr is_gold : Int) (order_to_go_through : List Int) (s : GameState) :
    List Entity :=
  let es := spawn_entity lr is_gold order_to_go_through s
  List.zipWith addE
    ((s.entities.set es.2.toNat es.1).map (smulE (b2i (decide (s.spawn_timer = 0)))))
    (s.entities.map (smulE (b2i (decide (s.spawn_timer > 0)))))

/-- The player-coordinate resolution of `step` (lines 43-51): masked sums
over the action tests, with action 0 left, 1 up, 2 right, 3 down. -/
def player_move (px py action : Int) : Int × Int :=
  (max 0 (px - 1) * b2i (decide (action = 0))
     + min 9 (px + 1) * b2i (decide (action = 2))
     + px * b2i (decide (action ≠ 0) && decide (action ≠ 2)),
   max 1 (py - 1) * b2i (decide (action = 1))
     + min 8 (py + 1) * b2i (decide (action = 3))
     + py * b2i (decide (action ≠ 1) && decide (action ≠ 3)))

/-- The parameter dictionary `params_asterix` of the source. -/
structure Params where
  ramping : Int
  ramp_interval : Int
  init_spawn_speed : Int
  init_move_interval : Int
  shot_cool_down : Int
deriving DecidableEq

/-- The difficulty-ramp block at the end of `step` (lines 63-82):
`ramp_cond` and `timer_cond` gate the masked updates of `ramp_timer`,
`move_speed`, `spawn_speed` and `ramp_index`, all computed from the
incoming field values. -/
def ramp_update (p : Params) (s : GameState) : GameState :=
  let ramp_cond := decide (p.ramping ≠ 0) &&
    (decide (s.spawn_speed > 1) || decide (s.move_speed > 1))
  let timer_cond := ramp_cond && decide (s.ramp_timer ≥ 0)
  let move_speed_cond := (ramp_cond && !timer_cond) &&
    (decide (s.move_speed ≠ 0) && decide (s.ramp_index % 2 ≠ 0))
  let spawn_speed_cond := (ramp_cond && !timer_cond) && decide (s.spawn_speed > 1)
  { s with
    ramp_timer := b2i timer_cond * (s.ramp_timer - 1)
                  + (1 - b2i timer_cond) * p.ramp_interval,
    move_speed := s.move_speed - b2i move_speed_cond,
    spawn_speed := s.spawn_speed - b2i spawn_speed_cond,
    ramp_index := s.ramp_index + b2i (ramp_cond && !timer_cond) }

/-- Observation array: a boolean grid indexed by row, column and channel.
The source allocates shape (10, 10, 5); a cell write with any index out
of that shape is a scatter with an out-of-bounds index, which JAX drops. -/
abbrev Obs := Int → Int → Int → Bool

/-- Index bounds of the (10, 10, 5) observation array. -/
def in_bounds (y x c : Int) : Prop :=
  0 ≤ y ∧ y < 10 ∧ 0 ≤ x ∧ x < 10 ∧ 0 ≤ c ∧ c < 5

instance (y x c : Int) : Decidable (in_bounds y x c) :=
  inferInstanceAs (Decidable (0 ≤ y ∧ y < 10 ∧ 0 ≤ x ∧ x < 10 ∧ 0 ≤ c ∧ c < 5))

/-- Index normalization of NumPy-style indexing as performed by
`jax.ops.index_update`: a negative index addresses from the end of the
axis (`i + n`), applied once, before the scatter bounds check. -/
def norm_index (i n : Int) : Int := if i < 0 then i + n else i

/-- `jax.ops.index_update` on the observation array: normalize each
index against its axis size (so index -1 addresses the last cell), then
set the addressed cell to `v` when the normalized index is inside the
(10, 10, 5) shape, and drop the write otherwise (the scatter
out-of-bounds drop). -/
def index_update_obs (o : Obs) (y x c : Int) (v : Bool) : Obs :=
  fun y2 x2 c2 =>
    if in_bounds (norm_index y 10) (norm_index x 10) (norm_index c 5) ∧
        y2 = norm_index y 10 ∧ x2 = norm_index x 10 ∧ c2 = norm_index c 5 then v
    else o y2 x2 c2

/-- Primary channel of an entity row in `get_obs`:
`c = 3 * gold + 1 * (1 - gold)` masked to the discard channel 4 for an
unfilled slot, `c_eff = c * filled + 4 * (1 - filled)`. -/
def primary_channel (e : Entity) : Int :=
  (3 * e.gold + 1 * (1 - e.gold)) * e.filled + 4 * (1 - e.filled)

/-- Trail channel of an entity row in `get_obs`:
`c_eff = 2 * filled + 4 * (1 - filled)`. -/
def trail_channel (e : Entity) : Int := 2 * e.filled + 4 * (1 - e.filled)

/-- Trailing column of an entity row in `get_obs`:
`back_x = (x - 1) * lr + (x + 1) * (1 - lr)`. -/
def trail_x (e : Entity) : Int := (e.x - 1) * e.lr + (e.x + 1) * (1 - e.lr)

/-- The per-entity body of the rendering loop in `get_obs`: write 1 to
the primary cell, then write `leave_trail = (back_x ≥ 0 ∧ back_x ≤ 9)`
to the trail cell. -/
def write_entity (o : Obs) (e : Entity) : Obs :=
  let o1 := index_update_obs o e.y e.x (primary_channel e) true
  index_update_obs o1 e.y (trail_x e) (trail_channel e)
    (if 0 ≤ trail_x e ∧ trail_x e ≤ 9 then true else false)

/-- `get_obs` of the source: start from the zero grid, set the player
cell on channel 0, loop over the entity rows, and finally slice the
visible channels `obs[:, :, :4]` (a read outside the sliced shape is no
cell at all, modelled as `false`). -/
def get_obs (s : GameState) : Obs :=
  let o0 : Obs := fun _ _ _ => false
  let o1 := index_update_obs o0 s.player_y s.player_x 0 true
  let o2 := s.entities.foldl write_entity o1
  fun y x c => if 0 ≤ c ∧ c < 4 then o2 y x c else false

/-- `step` of the source, with the per-step random draws (`lr`,
`is_gold`, and the slot permutation) passed in explicitly: spawn blend,
spawn-timer blend, player move, `update_entities`, the two timer
decrements, and the ramp block; returns
`(observation, state, reward, done)`. -/
def step (lr is_gold : Int) (order_to_go_through : List Int) (p : Params)
    (s : GameState) (action : Int) : Obs × GameState × Int × Bool :=
  let ents1 := spawn_update lr is_gold order_to_go_through s
  let spawn_timer1 := b2i (decide (s.spawn_timer = 0)) * s.spawn_speed
                      + b2i (decide (s.spawn_timer > 0)) * s.spawn_timer
  let pm := player_move s.player_x s.player_y action
  let s1 := { s with entities := ents1, spawn_timer := spawn_timer1,
                     player_x := pm.1, player_y := pm.2 }
  let urd := update_entities s1
  let s2 := urd.1
  let s3 := { s2 with spawn_timer := s2.spawn_timer - 1,
                      move_timer := s2.move_timer - 1 }
  let s4 := ramp_update p s3
  (get_obs s4, s4, urd.2.1, urd.2.2)

/-- `reset` of the source: the random input is accepted and ignored; the
fixed initial state has the player at (5, 5), the timers at their
configured speeds, and the 8-row entity table zeroed. -/
def reset (rng_input : Int) (p : Params) : Obs × GameState :=
  let s : GameState :=
    { player_x := 5, player_y := 5, shot_timer := 0,
      spawn_speed := p.init_spawn_speed, spawn_timer := p.init_spawn_speed,
      move_speed := p.init_move_interval, move_timer := p.init_move_interval,
      ramp_timer := p.ramp_interval, ramp_index := 0,
      entities := List.replicate 8 default }
  (get_obs s, s)

/-- A state whose `move_timer` is 3 (not a move tick) holding one active
enemy entity in slot 1 at column 2 moving right, player away at (0, 1). -/
def sC1 : GameState :=
  { player_x := 0, player_y := 1, shot_timer := 0,
    spawn_speed := 10, spawn_timer := 5,
    move_speed := 5, move_timer := 3,
    ramp_timer := 100, ramp_index := 0,
    entities := [default, ⟨2, 4, 1, 0, 1⟩, default, default,
                 default, default, default, default] }

/-- A state with an active enemy entity occupying the player's exact cell
(5, 5) in slot 0, every other slot inactive. -/
def sC2 : GameState :=
  { player_x := 5, player_y := 5, shot_timer := 0,
    spawn_speed := 10, spawn_timer := 5,
    move_speed := 5, move_timer := 3,
    ramp_timer := 100, ramp_index := 0,
    entities := [⟨5, 5, 1, 0, 1⟩, default, default, default,
                 default, default, default, default] }

/-- A move-tick state (`move_timer = 0`) with an active enemy entity in
slot 1 at column 9 moving right, player away at (0, 1). -/
def sC5 : GameState :=
  { player_x := 0, player_y := 1, shot_timer := 0,
    spawn_speed := 10, spawn_timer := 5,
    move_speed := 5, move_timer := 0,
    ramp_timer := 100, ramp_index := 0,
    entities := [default, ⟨9, 4, 1, 0, 1⟩, default, default,
                 default, default, default, default] }

/-- Default parameters `params_asterix` of the source. -/
def params_asterix : Params :=
  { ramping := 1, ramp_interval := 100, init_spawn_speed := 10,
    init_move_interval := 5, shot_cool_down := 5 }

/-- A state with all 8 entity slots active (columns 3, rows 1-8, moving
right, enemies) and `spawn_timer = 0`, player away at (0, 1). -/
def sC3 : GameState :=
  { player_x := 0, player_y := 1, shot_timer := 0,
    spawn_speed := 10, spawn_timer := 0,
    move_speed := 5, move_timer := 4,
    ramp_timer := 50, ramp_index := 0,
    entities := [⟨3, 1, 1, 0, 1⟩, ⟨3, 2, 1, 0, 1⟩, ⟨3, 3, 1, 0, 1⟩,
                 ⟨3, 4, 1, 0, 1⟩, ⟨3, 5, 1, 0, 1⟩, ⟨3, 6, 1, 0, 1⟩,
                 ⟨3, 7, 1, 0, 1⟩, ⟨3, 8, 1, 0, 1⟩] }

/-- Filled flags with slots 2 and 3 free and every other slot occupied. -/
def flagsC4 : List Int := [1, 1, 0, 0, 1, 1, 1, 1]

/-- The cells an entity row writes a set bit to in `get_obs` when none
of its write indices is negative (so index normalization is the
identity): its primary cell when that cell's index is inside the array,
and its trail cell when the trail index is inside the array (in which
case the written `leave_trail` value is necessarily `true`). -/
def writes_cell (e : Entity) (y x c : Int) : Prop :=
  (in_bounds e.y e.x (primary_channel e) ∧
    y = e.y ∧ x = e.x ∧ c = primary_channel e) ∨
  (in_bounds e.y (trail_x e) (trail_channel e) ∧
    y = e.y ∧ x = trail_x e ∧ c = trail_channel e)

instance (e : Entity) (y x c : Int) : Decidable (writes_cell e y x c) :=
  inferInstanceAs (Decidable (
    (in_bounds e.y e.x (primary_channel e) ∧
      y = e.y ∧ x = e.x ∧ c = primary_channel e) ∨
    (in_bounds e.y (trail_x e) (trail_channel e) ∧
      y = e.y ∧ x = trail_x e ∧ c = trail_channel e)))

/-- A state holding, on row 4, a left-moving entity at column 8 in slot
1 (its trail cell is column 9) and a right-moving entity at column 0 in
slot 2 (its trailing column is -1, which `jax.ops.index_update`
normalizes to column 9 before the bounds check), player away at (0, 1). -/
def sC8 : GameState :=
  { player_x := 0, player_y := 1, shot_timer := 0,
    spawn_speed := 10, spawn_timer := 5,
    move_speed := 5, move_timer := 3,
    ramp_timer := 100, ramp_index := 0,
    entities := [default, ⟨8, 4, 0, 0, 1⟩, ⟨0, 4, 1, 0, 1⟩, default,
                 default, default, default, default] }

/-- The state `sC8` without the slot-2 right-mover. -/
def sC8A : GameState :=
  { player_x := 0, player_y := 1, shot_timer := 0,
    spawn_speed := 10, spawn_timer := 5,
    move_speed := 5, move_timer := 3,
    ramp_timer := 100, ramp_index := 0,
    entities := [default, ⟨8, 4, 0, 0, 1⟩, default, default,
                 default, default, default, default] }

/-- The states reachable from some reset state by iterating the step
transition under arbitrary random draws and actions. -/
inductive Reachable (p : Params) : GameState → Prop where
  | reset_state : ∀ rng_input : Int, Reachable p (reset rng_input p).2
  | step_state : ∀ (s : GameState) (lr is_gold : Int) (perm : List Int) (a : Int),
      Reachable p s → Reachable p (step lr is_gold perm p s a).2.1

/-- Claim C1: the claim states that entities advance one column only on a
move tick (`move_timer = 0`) and that on a step with nonzero `move_timer`
the movement pass leaves every position unchanged.  The code's movement
mask uses only the filled flag and never `time_to_move`, so the active
entity of `sC1` advances from column 2 to column 3 although
`move_timer = 3 ≠ 0`, refuting the claim on the code. -/
theorem C1_moves_without_move_tick :
    sC1.move_timer = 3 ∧
    (update_entities sC1).1.entities.getD 1 default = ⟨3, 4, 1, 0, 1⟩ := by
  decide

/-- Claim C2: the claim states that `done` is the OR of enemy contacts
across both passes regardless of slot.  The code reassigns
`done = collision_enemy` on every loop iteration, so only slot 7 of the
post-move pass decides it: with an enemy on the player's cell in slot 0,
the step still reports `done = false`, refuting the claim on the code. -/
theorem C2_done_only_tracks_last_slot :
    sC2.player_x = 5 ∧ sC2.player_y = 5 ∧
    sC2.entities.getD 0 default = ⟨5, 5, 1, 0, 1⟩ ∧
    (update_entities sC2).2.2 = false ∧
    (step 1 0 [0, 1, 2, 3, 4, 5, 6, 7] params_asterix sC2 4).2.2.2 = false := by
  decide

/-- Claim C5: the claim states that an entity whose updated column leaves
[0, 9] is deactivated before the post-move collision check (an entity at
x = 9 moving right ends the step retired rather than at x = 10).  The
code's deactivation write is overwritten by the subsequent collision
write `x * (1 - collision_gold)` at the same slot, so the entity of `sC5`
ends the step still active at column 10, refuting the claim on the code. -/
theorem C5_exited_entity_stays_active :
    sC5.move_timer = 0 ∧
    (update_entities sC5).1.entities.getD 1 default = ⟨10, 4, 1, 0, 1⟩ := by
  decide

/-- Claim C3: the claim states that with all 8 slots active and
`spawn_timer = 0` the step leaves the entity table unchanged (the spawn
attempt is dropped without destroying any active entity).  The failed
slot search returns counter 7 with free flag 0, and `step` still writes
the produced inactive record `[0, 8, lr, is_gold, 0]` into slot 7,
destroying the active entity that occupied it: after the step slot 7 is
the inactive record, refuting the claim on the code.  The spawn timer is
reset to `spawn_speed` and then decremented as specified. -/
theorem C3_saturated_spawn_destroys_slot7 :
    sC3.spawn_timer = 0 ∧
    (sC3.entities.getD 7 default).filled = 1 ∧
    (step 1 0 [0, 1, 2, 3, 4, 5, 6, 7] params_asterix sC3 4).2.1.entities.getD 7 default
      = ⟨0, 8, 1, 0, 0⟩ ∧
    (step 1 0 [0, 1, 2, 3, 4, 5, 6, 7] params_asterix sC3 4).2.1.spawn_timer
      = sC3.spawn_speed - 1 := by
  decide

/-- Claim C4: the claim states that the free-slot search scans slot
indices in the order given by the drawn permutation.  The code never
reads the permutation: for the occupancy `flagsC4` it returns slot 2
(the first free index of its fixed ascending scan over indices 1..7)
under the permutation `[3, 0, 7, 6, 5, 4, 2, 1]` — whose first free
index is 3 — and returns the same slot under a reversed permutation and
even under an empty one, refuting the claimed permuted scan order. -/
theorem C4_permutation_is_ignored :
    while_sample_slots [3, 0, 7, 6, 5, 4, 2, 1] flagsC4 = (2, 1) ∧
    while_sample_slots [7, 6, 5, 4, 3, 2, 1, 0] flagsC4 = (2, 1) ∧
    while_sample_slots [] flagsC4 = (2, 1) ∧
    (2 : Int) ≠ 3 := by
  decide

/-- The masked sums of `player_move` written as nested conditionals. -/
theorem player_move_eq (px py a : Int) :
    player_move px py a =
      ((if a = 0 then max 0 (px - 1) else if a = 2 then min 9 (px + 1) else px),
       (if a = 1 then max 1 (py - 1) else if a = 3 then min 8 (py + 1) else py)) := by
  unfold player_move b2i
  by_cases h0 : a = 0 <;> by_cases h1 : a = 1 <;> by_cases h2 : a = 2 <;>
    by_cases h3 : a = 3 <;> simp_all

/-- One player move keeps the coordinates inside the board. -/
theorem player_move_mem (px py a : Int)
    (hx0 : 0 ≤ px) (hx9 : px ≤ 9) (hy1 : 1 ≤ py) (hy8 : py ≤ 8) :
    0 ≤ (player_move px py a).1 ∧ (player_move px py a).1 ≤ 9 ∧
    1 ≤ (player_move px py a).2 ∧ (player_move px py a).2 ≤ 8 := by
  rw [player_move_eq]
  dsimp only
  split_ifs <;> refine ⟨?_, ?_, ?_, ?_⟩ <;> omega

/-- Any sequence of player moves keeps the coordinates inside the board. -/
theorem player_move_foldl_mem (acts : List Int) : ∀ q : Int × Int,
    0 ≤ q.1 → q.1 ≤ 9 → 1 ≤ q.2 → q.2 ≤ 8 →
    0 ≤ (acts.foldl (fun r a => player_move r.1 r.2 a) q).1 ∧
    (acts.foldl (fun r a => player_move r.1 r.2 a) q).1 ≤ 9 ∧
    1 ≤ (acts.foldl (fun r a => player_move r.1 r.2 a) q).2 ∧
    (acts.foldl (fun r a => player_move r.1 r.2 a) q).2 ≤ 8 := by
  induction acts with
  | nil => intro q h1 h2 h3 h4; simpa using ⟨h1, h2, h3, h4⟩
  | cons a t ih =>
    intro q h1 h2 h3 h4
    rw [List.foldl_cons]
    have hm := player_move_mem q.1 q.2 a h1 h2 h3 h4
    exact ih (player_move q.1 q.2 a) hm.1 hm.2.1 hm.2.2.1 hm.2.2.2

/-- Claim C6: for a player position with `player_x ∈ [0, 9]` and
`player_y ∈ [1, 8]`, action 0 sets x to `max 0 (x - 1)`, action 2 to
`min 9 (x + 1)`, action 1 sets y to `max 1 (y - 1)`, action 3 to
`min 8 (y + 1)`, any other integer action leaves both coordinates
unchanged, every single move stays inside `x ∈ [0, 9], y ∈ [1, 8]`, and
so does the fold of any sequence of actions. -/
theorem C6_player_movement (px py : Int)
    (hx0 : 0 ≤ px) (hx9 : px ≤ 9) (hy1 : 1 ≤ py) (hy8 : py ≤ 8) :
    (∀ a : Int,
      (a = 0 → player_move px py a = (max 0 (px - 1), py)) ∧
      (a = 2 → player_move px py a = (min 9 (px + 1), py)) ∧
      (a = 1 → player_move px py a = (px, max 1 (py - 1))) ∧
      (a = 3 → player_move px py a = (px, min 8 (py + 1))) ∧
      (a ≠ 0 → a ≠ 1 → a ≠ 2 → a ≠ 3 → player_move px py a = (px, py)) ∧
      (0 ≤ (player_move px py a).1 ∧ (player_move px py a).1 ≤ 9 ∧
        1 ≤ (player_move px py a).2 ∧ (player_move px py a).2 ≤ 8)) ∧
    (∀ acts : List Int,
      0 ≤ (acts.foldl (fun r a => player_move r.1 r.2 a) (px, py)).1 ∧
      (acts.foldl (fun r a => player_move r.1 r.2 a) (px, py)).1 ≤ 9 ∧
      1 ≤ (acts.foldl (fun r a => player_move r.1 r.2 a) (px, py)).2 ∧
      (acts.foldl (fun r a => player_move r.1 r.2 a) (px, py)).2 ≤ 8) := by
  constructor
  · intro a
    refine ⟨?_, ?_, ?_, ?_, ?_, player_move_mem px py a hx0 hx9 hy1 hy8⟩ <;>
      · intros
        rw [player_move_eq]
        simp_all
  · intro acts
    exact player_move_foldl_mem acts (px, py) hx0 hx9 hy1 hy8

/-- Witness for C6 at the reset position (5, 5) and the left action. -/
theorem C6_player_movement_witness :
    player_move 5 5 0 = (max 0 (5 - 1), 5) :=
  ((C6_player_movement 5 5 (by decide) (by decide) (by decide) (by decide)).1 0).1 rfl

/-- Claim C9: with ramping enabled and `spawn_speed > 1 ∨ move_speed > 1`
(so `ramp_cond` holds; `move_speed` is nonnegative per the data model),
the ramp block of `step` behaves as specified: when the decrement branch
is not taken (`ramp_timer < 0`), it resets `ramp_timer` to the configured
interval, decrements `move_speed` iff `move_speed > 0` and `ramp_index`
is odd, decrements `spawn_speed` iff `spawn_speed > 1`, and increments
`ramp_index`; when `ramp_timer ≥ 0` it decrements `ramp_timer` and leaves
the speeds and `ramp_index` unchanged. -/
theorem C9_ramp_behaviour (p : Params) (s : GameState)
    (hr : p.ramping ≠ 0) (hsp : 1 < s.spawn_speed ∨ 1 < s.move_speed)
    (hms : 0 ≤ s.move_speed) :
    (s.ramp_timer < 0 →
      (ramp_update p s).ramp_timer = p.ramp_interval ∧
      ((ramp_update p s).move_speed = s.move_speed - 1 ↔
        0 < s.move_speed ∧ s.ramp_index % 2 = 1) ∧
      ((ramp_update p s).move_speed = s.move_speed ↔
        ¬(0 < s.move_speed ∧ s.ramp_index % 2 = 1)) ∧
      ((ramp_update p s).spawn_speed = s.spawn_speed - 1 ↔ 1 < s.spawn_speed) ∧
      ((ramp_update p s).spawn_speed = s.spawn_speed ↔ ¬1 < s.spawn_speed) ∧
      (ramp_update p s).ramp_index = s.ramp_index + 1) ∧
    (0 ≤ s.ramp_timer →
      (ramp_update p s).ramp_timer = s.ramp_timer - 1 ∧
      (ramp_update p s).move_speed = s.move_speed ∧
      (ramp_update p s).spawn_speed = s.spawn_speed ∧
      (ramp_update p s).ramp_index = s.ramp_index) := by
  have hc : (decide (p.ramping ≠ 0) &&
      (decide (s.spawn_speed > 1) || decide (s.move_speed > 1))) = true := by
    rcases hsp with h | h <;> simp [hr, h]
  constructor
  · intro hrt
    have ht : (decide (s.ramp_timer ≥ 0)) = false := by
      simp only [decide_eq_false_iff_not]
      omega
    refine ⟨?_, ?_, ?_, ?_, ?_, ?_⟩ <;>
      simp only [ramp_update, hc, ht, Bool.and_false, Bool.not_false,
        Bool.true_and, Bool.and_true, b2i] <;>
      by_cases h1 : s.move_speed ≠ 0 <;> by_cases h2 : s.ramp_index % 2 ≠ 0 <;>
      by_cases h3 : s.spawn_speed > 1 <;>
      simp [h1, h2, h3] <;> omega
  · intro hrt
    have ht : (decide (s.ramp_timer ≥ 0)) = true := by
      simp only [ge_iff_le, decide_eq_true_eq]
      omega
    refine ⟨?_, ?_, ?_, ?_⟩ <;>
      simp only [ramp_update, hc, ht, Bool.and_self, Bool.not_true,
        Bool.true_and, Bool.and_false, Bool.false_and, b2i] <;>
      simp

/-- Witness for C9 at the default parameters and a state whose ramp
interval has elapsed. -/
theorem C9_ramp_behaviour_witness :
    (ramp_update params_asterix
      { player_x := 5, player_y := 5, shot_timer := 0,
        spawn_speed := 10, spawn_timer := 4,
        move_speed := 5, move_timer := 2,
        ramp_timer := -1, ramp_index := 0,
        entities := List.replicate 8 default }).ramp_timer = 100 :=
  ((C9_ramp_behaviour params_asterix
    { player_x := 5, player_y := 5, shot_timer := 0,
      spawn_speed := 10, spawn_timer := 4,
      move_speed := 5, move_timer := 2,
      ramp_timer := -1, ramp_index := 0,
      entities := List.replicate 8 default }
    (by decide) (Or.inl (by decide)) (by decide)).1 (by decide)).1

/-- Reading a cell after a masked write with nonnegative target indices
(so index normalization is the identity) whose value is `true` whenever
it lands: the cell is set exactly when it was already set or the write
lands on it — such a write never clears a cell. -/
theorem index_update_obs_true_of (o : Obs) (y0 x0 c0 : Int) (v : Bool)
    (h0 : 0 ≤ y0 ∧ 0 ≤ x0 ∧ 0 ≤ c0)
    (hv : in_bounds y0 x0 c0 → v = true) (y x c : Int) :
    index_update_obs o y0 x0 c0 v y x c = true ↔
      o y x c = true ∨ (in_bounds y0 x0 c0 ∧ y = y0 ∧ x = x0 ∧ c = c0) := by
  have hy : norm_index y0 10 = y0 := by
    unfold norm_index; exact if_neg (by omega)
  have hx : norm_index x0 10 = x0 := by
    unfold norm_index; exact if_neg (by omega)
  have hcn : norm_index c0 5 = c0 := by
    unfold norm_index; exact if_neg (by omega)
  show (if in_bounds (norm_index y0 10) (norm_index x0 10) (norm_index c0 5) ∧
      y = norm_index y0 10 ∧ x = norm_index x0 10 ∧ c = norm_index c0 5 then v
    else o y x c) = true ↔ _
  rw [hy, hx, hcn]
  split_ifs with h
  · simp [h, hv h.1]
  · simp [h]

/-- Rendering one entity row whose write indices are all nonnegative
only ever lands `true` values, so the cell is set exactly when it was
already set or this row writes it. -/
theorem write_entity_eq_true (o : Obs) (e : Entity) (y x c : Int)
    (hey : 0 ≤ e.y) (hex : 0 ≤ e.x) (htx : 0 ≤ trail_x e)
    (hpc : 0 ≤ primary_channel e) (htc : 0 ≤ trail_channel e) :
    write_entity o e y x c = true ↔ o y x c = true ∨ writes_cell e y x c := by
  have hvt : in_bounds e.y (trail_x e) (trail_channel e) →
      (if 0 ≤ trail_x e ∧ trail_x e ≤ 9 then true else false) = true := by
    intro hb
    rcases hb with ⟨_, _, h1, h2, _⟩
    have hr : 0 ≤ trail_x e ∧ trail_x e ≤ 9 := ⟨h1, by omega⟩
    rw [if_pos hr]
  unfold write_entity writes_cell
  rw [index_update_obs_true_of _ _ _ _ _ ⟨hey, htx, htc⟩ hvt,
    index_update_obs_true_of _ _ _ _ _ ⟨hey, hex, hpc⟩ (fun _ => rfl), or_assoc]

/-- The rendering loop over a list of entity rows with nonnegative write
indices: a cell ends set exactly when it started set or some row of the
list writes it. -/
theorem foldl_write_entity_eq_true : ∀ l : List Entity,
    (∀ e ∈ l, 0 ≤ e.y ∧ 0 ≤ e.x ∧ 0 ≤ trail_x e ∧
      0 ≤ primary_channel e ∧ 0 ≤ trail_channel e) →
    ∀ (o : Obs) (y x c : Int),
    (l.foldl write_entity o) y x c = true ↔
      o y x c = true ∨ ∃ e ∈ l, writes_cell e y x c := by
  intro l
  induction l with
  | nil => intro _ o y x c; simp
  | cons e t ih =>
    intro hl o y x c
    obtain ⟨he1, he2, he3, he4, he5⟩ := hl e (List.mem_cons_self e t)
    rw [List.foldl_cons,
      ih (fun e2 he2 => hl e2 (List.mem_cons_of_mem e he2)),
      write_entity_eq_true o e y x c he1 he2 he3 he4 he5]
    simp only [List.mem_cons]
    constructor
    · rintro ((h | h) | ⟨e2, he2, hw⟩)
      · exact Or.inl h
      · exact Or.inr ⟨e, Or.inl rfl, h⟩
      · exact Or.inr ⟨e2, Or.inr he2, hw⟩
    · rintro (h | ⟨e2, (rfl | he2), hw⟩)
      · exact Or.inl (Or.inl h)
      · exact Or.inl (Or.inr hw)
      · exact Or.inr ⟨e2, he2, hw⟩

/-- Characterization of a visible cell of `get_obs` for a state whose
write indices are all nonnegative: it is set exactly when the player
write or some entity row's write lands on it. -/
theorem get_obs_eq_true (s : GameState) (y x c : Int) (hc : 0 ≤ c ∧ c < 4)
    (hp : 0 ≤ s.player_y ∧ 0 ≤ s.player_x)
    (hl : ∀ e ∈ s.entities, 0 ≤ e.y ∧ 0 ≤ e.x ∧ 0 ≤ trail_x e ∧
      0 ≤ primary_channel e ∧ 0 ≤ trail_channel e) :
    get_obs s y x c = true ↔
      (in_bounds s.player_y s.player_x 0 ∧
        y = s.player_y ∧ x = s.player_x ∧ c = 0) ∨
      ∃ e ∈ s.entities, writes_cell e y x c := by
  show (if 0 ≤ c ∧ c < 4 then
      (s.entities.foldl write_entity
        (index_update_obs (fun _ _ _ => false) s.player_y s.player_x 0 true)) y x c
    else false) = true ↔ _
  rw [if_pos hc, foldl_write_entity_eq_true s.entities hl,
    index_update_obs_true_of _ _ _ _ _ ⟨hp.1, hp.2, by norm_num⟩ (fun _ => rfl)]
  simp

/-- Claim C7: for every random input and every configuration, `reset`
returns the player at (5, 5), `spawn_speed`/`spawn_timer` at the
configured initial spawn speed, `move_speed`/`move_timer` at the
configured initial move interval, `ramp_timer` at the ramp interval,
`ramp_index` 0, all 8 entity slots inactive (the zero table), and an
observation whose only set cell is the player channel at (5, 5). -/
theorem C7_reset_state_and_obs (rng_input : Int) (p : Params) :
    ((reset rng_input p).2.player_x = 5 ∧ (reset rng_input p).2.player_y = 5 ∧
     (reset rng_input p).2.spawn_speed = p.init_spawn_speed ∧
     (reset rng_input p).2.spawn_timer = p.init_spawn_speed ∧
     (reset rng_input p).2.move_speed = p.init_move_interval ∧
     (reset rng_input p).2.move_timer = p.init_move_interval ∧
     (reset rng_input p).2.ramp_timer = p.ramp_interval ∧
     (reset rng_input p).2.ramp_index = 0 ∧
     (reset rng_input p).2.entities = List.replicate 8 (⟨0, 0, 0, 0, 0⟩ : Entity)) ∧
    (∀ y x c : Int, (reset rng_input p).1 y x c = true ↔ y = 5 ∧ x = 5 ∧ c = 0) := by
  refine ⟨⟨rfl, rfl, rfl, rfl, rfl, rfl, rfl, rfl, rfl⟩, ?_⟩
  intro y x c
  by_cases hc : 0 ≤ c ∧ c < 4
  · have hl0 : ∀ e ∈ (reset rng_input p).2.entities, 0 ≤ e.y ∧ 0 ≤ e.x ∧
        0 ≤ trail_x e ∧ 0 ≤ primary_channel e ∧ 0 ≤ trail_channel e := by
      intro e he
      have hee : e = (⟨0, 0, 0, 0, 0⟩ : Entity) := List.eq_of_mem_replicate he
      rw [hee]
      decide
    rw [show (reset rng_input p).1 = get_obs (reset rng_input p).2 from rfl,
      get_obs_eq_true _ y x c hc ((by decide : (0 : Int) ≤ 5 ∧ (0 : Int) ≤ 5)) hl0]
    constructor
    · rintro (⟨_, hy, hx, hc0⟩ | ⟨e2, he2, hw⟩)
      · exact ⟨hy, hx, hc0⟩
      · have he : e2 = (⟨0, 0, 0, 0, 0⟩ : Entity) := List.eq_of_mem_replicate he2
        subst he
        have hp : primary_channel (⟨0, 0, 0, 0, 0⟩ : Entity) = 4 := by decide
        have ht : trail_channel (⟨0, 0, 0, 0, 0⟩ : Entity) = 4 := by decide
        rcases hw with ⟨_, _, _, hcc⟩ | ⟨_, _, _, hcc⟩
        · rw [hp] at hcc; omega
        · rw [ht] at hcc; omega
    · rintro ⟨hy, hx, hc0⟩
      exact Or.inl ⟨(by decide : in_bounds 5 5 0), hy, hx, hc0⟩
  · have hobs : (reset rng_input p).1 y x c = false := by
      show (if 0 ≤ c ∧ c < 4 then _ else false) = false
      rw [if_neg hc]
    rw [hobs]
    constructor
    · intro h; cases h
    · rintro ⟨_, _, hc0⟩
      exact absurd ⟨by omega, by omega⟩ hc

/-- Claim C8 counterexample: in `sC8`, the slot-1 left-mover at column 8
writes the trail cell (4, 9, 2) — with it alone (state `sC8A`) the
rendered cell is true — but the slot-2 right-mover at column 0 has
trailing column -1, which normalizes to column 9, so its
`leave_trail = false` value lands at (4, 9, 2) and clears the cell: the
rendered observation is false at a visible cell that one of its writers
sets, refuting the claimed boolean-OR combination on the code. -/
theorem C8_wrapped_trail_cancels :
    ((⟨8, 4, 0, 0, 1⟩ : Entity) ∈ sC8.entities ∧
      writes_cell ⟨8, 4, 0, 0, 1⟩ 4 9 2) ∧
    get_obs sC8A 4 9 2 = true ∧
    get_obs sC8 4 9 2 = false := by
  decide

/-- Claim C8, amended: the write of an entity whose trailing column is
-1 wraps to the last column and lands the value `false` there, so in
general the combination is last-write-wins rather than OR (see the
counterexample).  Provided no write index of the state is negative —
player coordinates nonnegative, and every entity row with nonnegative
row, column, trailing column and channels — a visible-channel cell is
set exactly when at least one writer (the player write or an entity
row's primary or in-range trail write) lands on it, a boolean OR under
which no write cancels another; an entity row with `filled = 0` writes
to no visible channel (its writes are masked to the discard channel 4);
and the trail write lands only when the trailing column lies within
[0, 9]. -/
theorem C8_observation_or_unwrapped (s : GameState) (y x c : Int)
    (hc0 : 0 ≤ c) (hc4 : c < 4)
    (hp : 0 ≤ s.player_y ∧ 0 ≤ s.player_x)
    (hl : ∀ e ∈ s.entities, 0 ≤ e.y ∧ 0 ≤ e.x ∧ 0 ≤ trail_x e ∧
      0 ≤ primary_channel e ∧ 0 ≤ trail_channel e) :
    (get_obs s y x c = true ↔
      (in_bounds s.player_y s.player_x 0 ∧
        y = s.player_y ∧ x = s.player_x ∧ c = 0) ∨
      ∃ e ∈ s.entities, writes_cell e y x c) ∧
    (∀ e : Entity, e.filled = 0 → ¬ writes_cell e y x c) ∧
    (∀ e : Entity, ¬(0 ≤ trail_x e ∧ trail_x e ≤ 9) →
      ¬(in_bounds e.y (trail_x e) (trail_channel e) ∧
        y = e.y ∧ x = trail_x e ∧ c = trail_channel e)) := by
  refine ⟨get_obs_eq_true s y x c ⟨hc0, hc4⟩ hp hl, ?_, ?_⟩
  · intro e hf hw
    have hq : primary_channel e = 4 := by
      unfold primary_channel; rw [hf]; ring
    have ht : trail_channel e = 4 := by
      unfold trail_channel; rw [hf]; ring
    rcases hw with ⟨_, _, _, hcc⟩ | ⟨_, _, _, hcc⟩
    · rw [hq] at hcc; omega
    · rw [ht] at hcc; omega
  · intro e hb hland
    rcases hland with ⟨⟨_, _, h1, h2, _⟩, _, _, _⟩
    exact hb ⟨h1, by omega⟩

/-- Witness for the amended C8 at the reset state: the player cell of
the reset observation is set. -/
theorem C8_observation_or_unwrapped_witness :
    get_obs (reset 0 params_asterix).2 5 5 0 = true :=
  ((C8_observation_or_unwrapped (reset 0 params_asterix).2 5 5 0
      (by decide) (by decide) (by decide)
      (fun e he => by
        rw [List.eq_of_mem_replicate he]
        decide)).1).mpr (Or.inl (by decide))

/-- Setting one slot leaves every other slot's read unchanged. -/
theorem getD_set_of_ne {α : Type} (v d : α) :
    ∀ (l : List α) (i j : Nat), i ≠ j → (l.set i v).getD j d = l.getD j d := by
  intro l
  induction l with
  | nil => intro i j h; rfl
  | cons a t ih =>
    intro i j h
    cases i with
    | zero =>
      cases j with
      | zero => exact absurd rfl h
      | succ j2 => rfl
    | succ i2 =>
      cases j with
      | zero => rfl
      | succ j2 =>
        show (t.set i2 v).getD j2 d = t.getD j2 d
        exact ih i2 j2 (fun hh => h (by rw [hh]))

/-- Once the slot counter of the while loop is in [1, 7] it stays there. -/
theorem slotLoop_counter_mem (flags : List Int) :
    ∀ (n : Nat) (v : Int × Int), 1 ≤ v.1 → v.1 ≤ 7 →
      1 ≤ (slotLoop flags n v).1 ∧ (slotLoop flags n v).1 ≤ 7 := by
  intro n
  induction n with
  | zero => intro v h1 h7; exact ⟨h1, h7⟩
  | succ m ih =>
    intro v h1 h7
    simp only [slotLoop]
    split_ifs with h
    · exact ih _ (by omega) (by omega)
    · exact ⟨h1, h7⟩

/-- The slot returned by `while_sample_slots` always lies in [1, 7]. -/
theorem while_sample_slots_slot_mem (perm flags : List Int) :
    1 ≤ (while_sample_slots perm flags).1 ∧ (while_sample_slots perm flags).1 ≤ 7 := by
  have h1 : while_sample_slots perm flags =
      slotLoop flags 6 (0 + 1, b2i (decide (flags.getD ((0 : Int) + 1).toNat 0 = 0))) :=
    rfl
  rw [h1]
  exact slotLoop_counter_mem flags 6 _ (by norm_num) (by norm_num)

/-- The while loop never reads entry 0 of the occupancy list: its result
is unchanged when that entry is replaced. -/
theorem slotLoop_head_indep (a b : Int) (rest : List Int) :
    ∀ (n : Nat) (v : Int × Int), 0 ≤ v.1 →
      slotLoop (a :: rest) n v = slotLoop (b :: rest) n v := by
  intro n
  induction n with
  | zero => intro v h0; rfl
  | succ m ih =>
    intro v h0
    simp only [slotLoop]
    split_ifs with h
    · have hk : (v.1 + 1).toNat = v.1.toNat + 1 := by omega
      rw [hk, List.getD_cons_succ, List.getD_cons_succ]
      exact ih _ (by omega)
    · rfl

/-- Rescaling the row in slot 0 by a mask keeps an inactive slot 0
inactive. -/
theorem set0_smulE_filled0 (l : List Entity) (k : Int)
    (h : (l.getD 0 default).filled = 0) :
    ((l.set 0 (smulE k (l.getD 0 default))).getD 0 default).filled = 0 := by
  cases l with
  | nil => exact h
  | cons e t =>
    show k * e.filled = 0
    have he : e.filled = 0 := h
    rw [he, mul_zero]

/-- Writing slot 0 twice, the second time with a mask-rescaled row whose
filled flag is 0, leaves slot 0 inactive. -/
theorem set0_twice_filled0 (l : List Entity) (v1 : Entity) (k : Int) (w : Entity)
    (hw : w.filled = 0) :
    (((l.set 0 v1).set 0 (smulE k w)).getD 0 default).filled = 0 := by
  cases l with
  | nil => rfl
  | cons e t =>
    show k * w.filled = 0
    rw [hw, mul_zero]

/-- One iteration of the pre-move pass keeps slot 0 inactive. -/
theorem passAStep_filled0 (px py : Int) (acc : List Entity × Int × Bool) (i : Nat)
    (h : (acc.1.getD 0 default).filled = 0) :
    ((passAStep px py acc i).1.getD 0 default).filled = 0 := by
  cases i with
  | zero => exact set0_smulE_filled0 acc.1 _ h
  | succ i2 =>
    show ((acc.1.set (i2 + 1) _).getD 0 default).filled = 0
    rw [getD_set_of_ne]
    · exact h
    · exact Nat.succ_ne_zero i2

/-- One iteration of the movement pass keeps slot 0 inactive (the moved
local row keeps the filled flag of the stored row). -/
theorem passBStep_filled0 (px py : Int) (acc : List Entity × Int × Bool) (i : Nat)
    (h : (acc.1.getD 0 default).filled = 0) :
    ((passBStep px py acc i).1.getD 0 default).filled = 0 := by
  cases i with
  | zero => exact set0_twice_filled0 acc.1 _ _ _ h
  | succ i2 =>
    show (((acc.1.set (i2 + 1) _).set (i2 + 1) _).getD 0 default).filled = 0
    rw [getD_set_of_ne, getD_set_of_ne]
    · exact h
    · exact Nat.succ_ne_zero i2
    · exact Nat.succ_ne_zero i2

/-- The whole pre-move pass keeps slot 0 inactive. -/
theorem foldl_passAStep_filled0 (px py : Int) (idxs : List Nat) :
    ∀ acc : List Entity × Int × Bool, (acc.1.getD 0 default).filled = 0 →
      ((List.foldl (passAStep px py) acc idxs).1.getD 0 default).filled = 0 := by
  induction idxs with
  | nil => intro acc h; exact h
  | cons i t ih =>
    intro acc h
    rw [List.foldl_cons]
    exact ih _ (passAStep_filled0 px py acc i h)

/-- The whole movement pass keeps slot 0 inactive. -/
theorem foldl_passBStep_filled0 (px py : Int) (idxs : List Nat) :
    ∀ acc : List Entity × Int × Bool, (acc.1.getD 0 default).filled = 0 →
      ((List.foldl (passBStep px py) acc idxs).1.getD 0 default).filled = 0 := by
  induction idxs with
  | nil => intro acc h; exact h
  | cons i t ih =>
    intro acc h
    rw [List.foldl_cons]
    exact ih _ (passBStep_filled0 px py acc i h)

/-- The entity table computed by `update_entities` is the one produced
by the second loop. -/
theorem update_entities_entities (s : GameState) :
    (update_entities s).1.entities = (passB_run s).1 := by
  unfold update_entities
  generalize passB_run s = r
  rfl

/-- `update_entities` keeps slot 0 inactive. -/
theorem update_entities_filled0 (s : GameState)
    (h : (s.entities.getD 0 default).filled = 0) :
    ((update_entities s).1.entities.getD 0 default).filled = 0 := by
  rw [update_entities_entities]
  unfold passB_run
  apply foldl_passBStep_filled0
  unfold passA_run
  exact foldl_passAStep_filled0 s.player_x s.player_y (List.range 8)
    (s.entities, 0, false) h

/-- The masked spawn blend writes only the searched slot, whose index is
nonzero, so slot 0 stays inactive. -/
theorem zip_blend_filled0 (l : List Entity) (i : Nat) (w : Entity) (k1 k2 : Int)
    (hi : i ≠ 0) (h : (l.getD 0 default).filled = 0) :
    ((List.zipWith addE ((l.set i w).map (smulE k1)) (l.map (smulE k2))).getD 0
        default).filled = 0 := by
  cases l with
  | nil => rfl
  | cons e t =>
    obtain ⟨m, rfl⟩ := Nat.exists_eq_succ_of_ne_zero hi
    show k1 * e.filled + k2 * e.filled = 0
    have he : e.filled = 0 := h
    rw [he, mul_zero, mul_zero, add_zero]

/-- `spawn_update` keeps slot 0 inactive, since the returned slot index
lies in [1, 7]. -/
theorem spawn_update_filled0 (lr g : Int) (perm : List Int) (s : GameState)
    (h : (s.entities.getD 0 default).filled = 0) :
    ((spawn_update lr g perm s).getD 0 default).filled = 0 := by
  simp only [spawn_update, spawn_entity]
  apply zip_blend_filled0
  · have h1 := (while_sample_slots_slot_mem perm (s.entities.map fun e => e.filled)).1
    omega
  · exact h

/-- A full step keeps slot 0 inactive: the timer and ramp blocks do not
touch the entity table, so it is the `update_entities` table of the
spawned-and-moved intermediate state. -/
theorem step_filled0 (lr g : Int) (perm : List Int) (p : Params) (s : GameState)
    (a : Int) (h : (s.entities.getD 0 default).filled = 0) :
    ((step lr g perm p s a).2.1.entities.getD 0 default).filled = 0 := by
  unfold step ramp_update
  dsimp only
  exact update_entities_filled0 _ (spawn_update_filled0 lr g perm s h)

/-- Claim C10: the free-slot search never examines slot 0 — its result
does not depend on entry 0 of the occupancy list — and the slot it
returns always lies in [1, 7]; consequently a spawn never writes slot 0,
and starting from any reset state, entity slot 0 is inactive in every
reachable state. -/
theorem C10_slot0_never_spawned :
    (∀ perm flags : List Int,
      1 ≤ (while_sample_slots perm flags).1 ∧ (while_sample_slots perm flags).1 ≤ 7) ∧
    (∀ (perm : List Int) (a b : Int) (rest : List Int),
      while_sample_slots perm (a :: rest) = while_sample_slots perm (b :: rest)) ∧
    (∀ (p : Params) (s : GameState), Reachable p s →
      (s.entities.getD 0 default).filled = 0) := by
  refine ⟨fun perm flags => while_sample_slots_slot_mem perm flags, ?_, ?_⟩
  · intro perm a b rest
    unfold while_sample_slots
    exact slotLoop_head_indep a b rest 7 (0, 0) (by norm_num)
  · intro p s hs
    induction hs with
    | reset_state rng => rfl
    | step_state s lr g perm a hs ih => exact step_filled0 lr g perm p s a ih

/-- Witness for C10 at the reset state of the default parameters. -/
theorem C10_slot0_never_spawned_witness :
    (((reset 0 params_asterix).2.entities.getD 0 default).filled = 0) :=
  C10_slot0_never_spawned.2.2 params_asterix (reset 0 params_asterix).2
    (Reachable.reset_state 0)

end Asterix
